import Mathlib

/-!
# Verification of the wmts-extractor tile pipeline

Shallow embedding of the core of the `wmts-extractor` repository:

* `src/tiler.py` — `MercatorTiler` and `SlippyTiler` coordinate math,
  embedded over `ℝ` (Python floats are modelled as real numbers, Python
  `int()` truncation and `math.ceil` as `⌊·⌋`/`⌈·⌉` on `ℝ`);
* `src/downloader.py` — `Downloader.getTaskList` task partitioning and the
  `Downloader.process` orchestration (the latter as an event-trace model,
  with the external mosaic engine's outcome as a parameter);
* `src/scraper.py` — `TileScraper.getTile` fetch/retry/cleanup state machine
  and the `TileScraper.run` per-lane loop, with the external HTTP, gdal and
  geometry collaborators abstracted as parameters.

Theorems at the end settle the behavioural claims about these functions.
-/

open Real

namespace WmtsExtractor

noncomputable section TilerMath

/-- Python `int()` applied to a real value: truncation toward zero. -/
def pyTrunc (x : ℝ) : ℤ := if 0 ≤ x then ⌊x⌋ else ⌈x⌉

/-! ## `src/tiler.py`, class `MercatorTiler` (default `tileSize = 256`) -/

namespace MercatorTiler

/-- `self._tileSize` (the default 256, as used by `Downloader`). -/
def tileSize : ℝ := 256

/-- `self._initialResolution = 2 * math.pi * 6378137 / self._tileSize`. -/
def initialResolution : ℝ := 2 * π * 6378137 / tileSize

/-- `self._originShift = 2 * math.pi * 6378137 / 2.0`. -/
def originShift : ℝ := 2 * π * 6378137 / 2

/-- `LatLonToMeters(lat, lon)`: WGS84 lat/lon to spherical-mercator meters. -/
def LatLonToMeters (lat lon : ℝ) : ℝ × ℝ :=
  (lon * originShift / 180,
   Real.log (Real.tan ((90 + lat) * π / 360)) / (π / 180) * originShift / 180)

/-- `MetersToLatLon(mx, my)`: spherical-mercator meters to WGS84 lat/lon,
returned as `(lat, lon)`. -/
def MetersToLatLon (mx my : ℝ) : ℝ × ℝ :=
  (180 / π * (2 * Real.arctan (Real.exp (my / originShift * 180 * π / 180)) - π / 2),
   mx / originShift * 180)

/-- `Resolution(zoom) = initialResolution / (2**zoom)`. -/
def Resolution (zoom : ℕ) : ℝ := initialResolution / 2 ^ zoom

/-- `PixelsToMeters(px, py, zoom)`. -/
def PixelsToMeters (px py : ℝ) (zoom : ℕ) : ℝ × ℝ :=
  (px * Resolution zoom - originShift, py * Resolution zoom - originShift)

/-- `MetersToPixels(mx, my, zoom)`. -/
def MetersToPixels (mx my : ℝ) (zoom : ℕ) : ℝ × ℝ :=
  ((mx + originShift) / Resolution zoom, (my + originShift) / Resolution zoom)

/-- `PixelsToTile(px, py)`: `tx = int(ceil(px / tileSize) - 1)` (`math.ceil`
already yields an integer, so `int` is the identity here). -/
def PixelsToTile (px py : ℝ) : ℤ × ℤ :=
  (⌈px / tileSize⌉ - 1, ⌈py / tileSize⌉ - 1)

/-- `MetersToTile(mx, my, zoom)`. -/
def MetersToTile (mx my : ℝ) (zoom : ℕ) : ℤ × ℤ :=
  PixelsToTile (MetersToPixels mx my zoom).1 (MetersToPixels mx my zoom).2

/-- `LatLonToTile(lat, lon, z)`. -/
def LatLonToTile (lat lon : ℝ) (z : ℕ) : ℤ × ℤ :=
  MetersToTile (LatLonToMeters lat lon).1 (LatLonToMeters lat lon).2 z

/-- `TileBounds(tx, ty, zoom)`: bounds of the tile in EPSG:900913 meters,
returned in the source's tuple order `(miny, minx, maxy, maxx)`. -/
def TileBounds (tx ty : ℤ) (zoom : ℕ) : ℝ × ℝ × ℝ × ℝ :=
  ((PixelsToMeters (tx * tileSize) (ty * tileSize) zoom).2,
   (PixelsToMeters (tx * tileSize) (ty * tileSize) zoom).1,
   (PixelsToMeters ((tx + 1) * tileSize) ((ty + 1) * tileSize) zoom).2,
   (PixelsToMeters ((tx + 1) * tileSize) ((ty + 1) * tileSize) zoom).1)

/-- `TileLatLonBounds(tx, ty, zoom)`: exactly as in the source, the tuple
returned by `TileBounds` is unpacked positionally, so `bounds[0]` (which is
`miny`) is passed as the `mx` argument of `MetersToLatLon` and `bounds[1]`
(which is `minx`) as its `my` argument, and likewise for the maxima. -/
def TileLatLonBounds (tx ty : ℤ) (zoom : ℕ) : ℝ × ℝ × ℝ × ℝ :=
  ((MetersToLatLon (TileBounds tx ty zoom).1 (TileBounds tx ty zoom).2.1).1,
   (MetersToLatLon (TileBounds tx ty zoom).1 (TileBounds tx ty zoom).2.1).2,
   (MetersToLatLon (TileBounds tx ty zoom).2.2.1 (TileBounds tx ty zoom).2.2.2).1,
   (MetersToLatLon (TileBounds tx ty zoom).2.2.1 (TileBounds tx ty zoom).2.2.2).2)

/-- `GoogleTile(tx, ty, zoom)`: TMS to Google tile coordinates. -/
def GoogleTile (tx ty : ℤ) (zoom : ℕ) : ℤ × ℤ :=
  (tx, (2 ^ zoom - 1) - ty)

/-- The spec's reading of the mercator tile bounds: the tile's pixel corners
converted back to meters and then to lat/lon, returned as
`(south, west, north, east)` in geographic degrees.  This definition follows
the spec's words (for comparison against the source's `TileBounds`, which
stops at meters). -/
def specTileBoundsDeg (tx ty : ℤ) (zoom : ℕ) : ℝ × ℝ × ℝ × ℝ :=
  ((MetersToLatLon (PixelsToMeters (tx * tileSize) (ty * tileSize) zoom).1
      (PixelsToMeters (tx * tileSize) (ty * tileSize) zoom).2).1,
   (MetersToLatLon (PixelsToMeters (tx * tileSize) (ty * tileSize) zoom).1
      (PixelsToMeters (tx * tileSize) (ty * tileSize) zoom).2).2,
   (MetersToLatLon (PixelsToMeters ((tx + 1) * tileSize) ((ty + 1) * tileSize) zoom).1
      (PixelsToMeters ((tx + 1) * tileSize) ((ty + 1) * tileSize) zoom).2).1,
   (MetersToLatLon (PixelsToMeters ((tx + 1) * tileSize) ((ty + 1) * tileSize) zoom).1
      (PixelsToMeters ((tx + 1) * tileSize) ((ty + 1) * tileSize) zoom).2).2)

end MercatorTiler

/-! ## `src/tiler.py`, class `SlippyTiler` -/

namespace SlippyTiler

/-- `math.radians`. -/
def radians (d : ℝ) : ℝ := d * π / 180

/-- `math.degrees`. -/
def degrees (r : ℝ) : ℝ := r * 180 / π

/-- `numTiles(z) = math.pow(2, z)`. -/
def numTiles (z : ℕ) : ℝ := 2 ^ z

/-- `sec(x) = 1.0 / math.cos(x)`. -/
def sec (x : ℝ) : ℝ := 1 / Real.cos x

/-- `LatLonToRelativeXY(lat, lon)`. -/
def LatLonToRelativeXY (lat lon : ℝ) : ℝ × ℝ :=
  ((lon + 180) / 360,
   (1 - Real.log (Real.tan (radians lat) + sec (radians lat)) / π) / 2)

/-- `LatLonToXY(lat, lon, z)`. -/
def LatLonToXY (lat lon : ℝ) (z : ℕ) : ℝ × ℝ :=
  (numTiles z * (LatLonToRelativeXY lat lon).1,
   numTiles z * (LatLonToRelativeXY lat lon).2)

/-- `LatLonToTile(lat, lon, z) = (int(x), int(y))`. -/
def LatLonToTile (lat lon : ℝ) (z : ℕ) : ℤ × ℤ :=
  (pyTrunc (LatLonToXY lat lon z).1, pyTrunc (LatLonToXY lat lon z).2)

/-- `MercatorToLat(mercatorY)`. -/
def MercatorToLat (mercatorY : ℝ) : ℝ :=
  degrees (Real.arctan (Real.sinh mercatorY))

/-- `LatBounds(y, z)`: returns `(lat1, lat2)` = (north, south) latitudes. -/
def LatBounds (y : ℤ) (z : ℕ) : ℝ × ℝ :=
  (MercatorToLat (π * (1 - 2 * (y * (1 / numTiles z)))),
   MercatorToLat (π * (1 - 2 * (y * (1 / numTiles z) + 1 / numTiles z))))

/-- `LonBounds(x, z)`: returns `(lon1, lon2)` = (west, east) longitudes. -/
def LonBounds (x : ℤ) (z : ℕ) : ℝ × ℝ :=
  (-180 + x * (360 / numTiles z),
   -180 + x * (360 / numTiles z) + 360 / numTiles z)

/-- `TileBounds(x, y, z)`: `(lat2, lon1, lat1, lon2)`, i.e. (S, W, N, E). -/
def TileBounds (x y : ℤ) (z : ℕ) : ℝ × ℝ × ℝ × ℝ :=
  ((LatBounds y z).2, (LonBounds x z).1, (LatBounds y z).1, (LonBounds x z).2)

/-- Highest latitude representable in the slippy scheme without leaving the
`[0, 2^z)` row range: `degrees (arctan (sinh π))` (≈ 85.0511°). -/
def maxLatitude : ℝ := degrees (Real.arctan (Real.sinh π))

end SlippyTiler

end TilerMath

/-! ## `src/downloader.py`, `Downloader.getTaskList`

A task is the dict `{'xyz': (x, y, zoom), 'uri': ..., 'pathname': ...}`.
The URI template instantiation `uri.format(**values)` is modelled by an
abstract formatting function `uriT`. -/

/-- One tile-download task (the dict built in `getTaskList`). -/
structure Task where
  xyz : ℤ × ℤ × ℕ
  uri : String
  pathname : String
deriving DecidableEq, Repr

/-- Construction of one task for tile `(x, y)` at `zoom`:
`uri.format(x=x, y=y, z=zoom, format=fmt)` and
`os.path.join(out_path, 'tile_{zoom}_{x}_{y}.{fmt}')`. -/
def mkTask (uriT : ℤ → ℤ → ℕ → String) (fmt outPath : String) (zoom : ℕ)
    (x y : ℤ) : Task :=
  { xyz := (x, y, zoom)
  , uri := uriT x y zoom
  , pathname :=
      outPath ++ "/tile_" ++ toString zoom ++ "_" ++ toString x ++ "_"
        ++ toString y ++ "." ++ fmt }

/-- The inclusive integer range `a..b` (`range(a, b + 1)` in Python); empty
when `b < a`. -/
def intRange (a b : ℤ) : List ℤ :=
  (List.range (b + 1 - a).toNat).map (fun i => a + i)

/-- The enumeration order of `getTaskList`'s nested loops: `y` from
`min(y1, y2)` to `max(y1, y2)` inclusive, and for each `y`, `x` from `x1`
to `x2` inclusive. -/
def gridTasks (mk : ℤ → ℤ → Task) (x1 y1 x2 y2 : ℤ) : List Task :=
  (intRange (min y1 y2) (max y1 y2)).flatMap
    (fun y => (intRange x1 x2).map (fun x => mk x y))

/-- The body of `getTaskList`'s loop: append the task to
`tasklist[index]`, increment `index`, reset it to `0` once it reaches the
thread count. -/
def rrStep (threads : ℕ) (st : List (List Task) × ℕ) (t : Task) :
    List (List Task) × ℕ :=
  (st.1.set st.2 (st.1.getD st.2 [] ++ [t]),
   if st.2 + 1 = threads then 0 else st.2 + 1)

/-- `Downloader.getTaskList`: distribute the enumerated tile tasks
round-robin over `threads` lanes (`tasklist = [[] for t in range(threads)]`,
then the loop of `rrStep`). -/
def getTaskList (threads : ℕ) (mk : ℤ → ℤ → Task) (x1 y1 x2 y2 : ℤ) :
    List (List Task) :=
  ((gridTasks mk x1 y1 x2 y2).foldl (rrStep threads)
    (List.replicate threads [], 0)).1

/-- The sub-list of `ts` formed by the elements at positions congruent to
`r` modulo `threads` (for `r < threads`); the reference characterisation of
one round-robin lane. -/
def laneOf (threads : ℕ) : List Task → ℕ → List Task
  | [], _ => []
  | t :: ts, r =>
      if r = 0 then t :: laneOf threads ts (threads - 1)
      else laneOf threads ts (r - 1)

/-- The lane residue reached for final lane `j` when distribution starts at
lane `i` (both `< threads`): `(threads + j - i) % threads` written without
`%`. -/
def resid (threads i j : ℕ) : ℕ :=
  if i ≤ j then j - i else threads + j - i

/-! ## `src/scraper.py`, `TileScraper`

External collaborators are abstracted:
* the per-attempt outcome of the HTTP fetch (`requests.get` + streaming
  copy) is an environment value of type `FetchResult`;
* `gdal.Open` returning a usable dataset and `gdal.Translate` succeeding
  are boolean environment functions;
* the AOI geometry and `shapely`'s `intersects` test are a type parameter
  `G` and a boolean function;
* the filesystem is a map from pathname to `FileState`.
-/

/-- State of the destination file of one task. `partial_` stands for a
zero-byte or truncated file (created by `open(pathname, 'wb')` whose
streaming copy then failed). -/
inductive FileState where
  | absent
  | partial_
  | complete
deriving DecidableEq, Repr

/-- Outcome of one fetch attempt (one iteration of `getTile`'s retry loop):
success, an exception raised after the destination file was opened (leaving
a partial file), or an exception raised before it was opened (e.g.
`requests.get` itself failing; no file is created). -/
inductive FetchResult where
  | ok
  | failAfterOpen
  | failBeforeOpen
deriving DecidableEq, Repr

/-- The retry loop of `getTile` (`while tries <= max_tries`), fed the list
of per-attempt outcomes (`attempts.length` = `max_tries` = 3 in the
source).  Returns the destination file's state and whether the loop exited
via `break` (download success). -/
def getTileLoop : List FetchResult → FileState → FileState × Bool
  | [], st => (st, false)
  | a :: rest, st =>
      match a with
      | .ok => (.complete, true)
      | .failAfterOpen => getTileLoop rest .partial_
      | .failBeforeOpen => getTileLoop rest st

/-- `TileScraper.getTile`, for one destination path whose current file
state is `st`.  Returns `(file state after the call, number of fetch
attempts issued, an uncaught exception was raised)`.  The entry check
`if not os.path.exists(pathname)` short-circuits; after an exhausted retry
loop, `os.remove(pathname)` deletes the file — raising `FileNotFoundError`
(uncaught) when no attempt ever created it. -/
def getTile (attempts : List FetchResult) (st : FileState) :
    FileState × ℕ × Bool :=
  if st = .absent then
    match getTileLoop attempts st with
    | (st', true) =>
        (st', (attempts.takeWhile (fun a => a ≠ .ok)).length + 1, false)
    | (st', false) =>
        if st' = .absent then (st', attempts.length, true)
        else (.absent, attempts.length, false)
  else (st, 0, false)

/-- Configuration of one `TileScraper` worker, over an abstract geometry
type `G`: the injected tiler's `TileBounds`, the optional (already
reprojected) AOI geometry, the `shapely` intersection test, the per-task
fetch environment, and the gdal collaborators' outcomes. -/
structure ScraperCfg (G : Type) where
  tileBounds : ℤ × ℤ × ℕ → ℝ × ℝ × ℝ × ℝ
  geometry : Option G
  intersectsFn : (ℝ × ℝ × ℝ × ℝ) → G → Bool
  fetchEnv : Task → List FetchResult
  gdalOpenOk : Task → Bool
  translateOk : Task → Bool

/-- Mutable state of one worker thread: the filesystem restricted to file
states by pathname, the accumulated `self._tiles` list, the URIs for which
fetch attempts were issued (most recent last), and whether an uncaught
exception has terminated the lane. -/
structure ScraperState where
  fs : String → FileState
  tiles : List String
  fetched : List String
  aborted : Bool

/-- Pointwise filesystem update. -/
def setFile (fs : String → FileState) (p : String) (v : FileState) :
    String → FileState :=
  fun q => if q = p then v else fs q

/-- The `.tif` sibling pathname produced by `gdal.Translate`
(`os.path.splitext(pathname)[0] + '.tif'`), modelled as appending the
suffix to the task's pathname stem. -/
def tifName (t : Task) : String := t.pathname ++ ".tif"

/-- One iteration of `TileScraper.run`'s task loop: compute the tile
bounds, test AOI intersection, and if it holds download (`getTile`), then
georeference (`gdal.Open` + `gdal.Translate`, the latter's failure caught
and logged).  An exception escaping `getTile` aborts the lane: every later
iteration is skipped. -/
def tileStep {G : Type} (cfg : ScraperCfg G) (st : ScraperState) (t : Task) :
    ScraperState :=
  if st.aborted then st
  else
    let bounds := cfg.tileBounds t.xyz
    let intersects :=
      match cfg.geometry with
      | none => true
      | some g => cfg.intersectsFn bounds g
    if intersects then
      match getTile (cfg.fetchEnv t) (st.fs t.pathname) with
      | (fst, n, true) =>
          { st with
              fs := setFile st.fs t.pathname fst
              fetched := st.fetched ++ List.replicate n t.uri
              aborted := true }
      | (fst, n, false) =>
          let fs' := setFile st.fs t.pathname fst
          let fetched' := st.fetched ++ List.replicate n t.uri
          if fst ≠ .absent then
            if cfg.gdalOpenOk t then
              if cfg.translateOk t then
                { st with
                    fs := setFile fs' (tifName t) .complete
                    tiles := st.tiles ++ [tifName t]
                    fetched := fetched' }
              else { st with fs := fs', fetched := fetched' }
            else { st with fs := fs', fetched := fetched' }
          else { st with fs := fs', fetched := fetched' }
    else st

/-- `TileScraper.run`: fold the task loop over the lane's task list. -/
def scraperRun {G : Type} (cfg : ScraperCfg G) (fs0 : String → FileState)
    (tasks : List Task) : ScraperState :=
  tasks.foldl (tileStep cfg) ⟨fs0, [], [], false⟩

/-! ## `src/downloader.py`, `Downloader.process`

`process` is sequential straight-line code; it is modelled as the trace of
externally visible events it performs, with the worker behaviour and the
mosaic engine's outcome (`gdal.Warp`, whose return value the source
ignores) supplied as parameters. -/

/-- Events performed by `Downloader.process`, in order. -/
inductive ProcEvent where
  | mkdir
  | startWorker (idx : ℕ)
  | joinWorker (idx : ℕ)
  | warp (tiles : List String)
  | removeFile (pathname : String)
  | rmdir
deriving DecidableEq, Repr

/-- Outcome of the external `gdal.Warp` call: it may raise an exception, or
return with the merge failed (with gdal exceptions disabled, as in this
repository, a failed warp returns `None`), or return with the merge
succeeded.  The source never inspects the returned value. -/
inductive MergeOutcome where
  | raises
  | returnsFailure
  | returnsSuccess
deriving DecidableEq, Repr

/-- `Downloader.process` after `getTileMinMax`: create the output folder,
partition `(x1, y1, x2, y2)` into `threads` lanes, start one worker per
lane, join them all, concatenate their `_tiles` lists, call `gdal.Warp`
once, then (provided the warp call returned) delete the `tile*` files
present in the output folder and remove the folder when empty.  Returns
the event trace and whether `process` returned normally.  `procPrefix` is
the part of the trace up to and including the single `gdal.Warp` call:
create the directory, start one worker per lane, join them all, then
warp the concatenation of all workers' tile lists. -/
def procPrefix (threads : ℕ) (worker : List Task → List String)
    (mk : ℤ → ℤ → Task) (x1 y1 x2 y2 : ℤ) : List ProcEvent :=
  ProcEvent.mkdir ::
    ((List.range (getTaskList threads mk x1 y1 x2 y2).length).map
        ProcEvent.startWorker ++
     (List.range (getTaskList threads mk x1 y1 x2 y2).length).map
        ProcEvent.joinWorker ++
     [ProcEvent.warp (((getTaskList threads mk x1 y1 x2 y2).map
        worker).flatten)])

/-- The full `process` model: the prefix up to the warp call, then —
provided the warp call returned rather than raised — the deletion of the
`tile*` files present in the output folder and the removal of the folder
when empty. -/
def processRun (threads : ℕ) (worker : List Task → List String)
    (mk : ℤ → ℤ → Task) (x1 y1 x2 y2 : ℤ)
    (tileGlob : List String) (dirEmptyAfter : Bool)
    (mergeOutcome : MergeOutcome) : List ProcEvent × Bool :=
  if mergeOutcome = .raises then
    (procPrefix threads worker mk x1 y1 x2 y2, false)
  else
    (procPrefix threads worker mk x1 y1 x2 y2 ++
      tileGlob.map ProcEvent.removeFile ++
      (if dirEmptyAfter then [ProcEvent.rmdir] else []), true)

/-- The worker function `process` actually spawns: a `TileScraper` run over
the lane, reporting its `_tiles` list. -/
def scraperWorker {G : Type} (cfg : ScraperCfg G)
    (fs0 : String → FileState) (tasks : List Task) : List String :=
  (scraperRun cfg fs0 tasks).tiles

/-! ## Concrete fixtures used to evaluate the models on explicit inputs -/

/-- A simple task constructor for concrete evaluations (zoom 5, constant
URI and pathname templates). -/
def exMk : ℤ → ℤ → Task := fun x y => { xyz := (x, y, 5), uri := "u", pathname := "p" }

/-- A default task value. -/
def exTask : Task := { xyz := (0, 0, 0), uri := "", pathname := "" }

/-- A task whose three fetch attempts all fail before the destination file
is created (e.g. `requests.get` raising on every attempt). -/
def exTask1 : Task := { xyz := (0, 0, 1), uri := "u1", pathname := "p1" }

/-- A task whose first fetch attempt succeeds. -/
def exTask2 : Task := { xyz := (1, 0, 1), uri := "u2", pathname := "p2" }

/-- Worker configuration with no AOI geometry, where `exTask1`'s attempts
all raise before file creation and every other task downloads at once. -/
noncomputable def exCfgNoGeom : ScraperCfg Unit :=
  { tileBounds := fun _ => (0, 0, 0, 0)
  , geometry := none
  , intersectsFn := fun _ _ => true
  , fetchEnv := fun t =>
      if t.pathname = "p1" then [.failBeforeOpen, .failBeforeOpen, .failBeforeOpen]
      else [.ok]
  , gdalOpenOk := fun _ => true
  , translateOk := fun _ => true }

/-- Worker configuration with an AOI geometry that intersects no tile. -/
noncomputable def exCfgNoHit : ScraperCfg Unit :=
  { tileBounds := fun _ => (0, 0, 0, 0)
  , geometry := some ()
  , intersectsFn := fun _ _ => false
  , fetchEnv := fun _ => [.ok]
  , gdalOpenOk := fun _ => true
  , translateOk := fun _ => true }

/-- An initial worker state over an empty filesystem. -/
def exState : ScraperState :=
  { fs := fun _ => .absent, tiles := [], fetched := [], aborted := false }

/-- Claim C10: converting a TMS tile index to Google numbering twice returns
the original index — the y-flip `y ↦ (2^zoom - 1) - y` is an involution. -/
theorem claim_C10_googleTile_involution (tx ty : ℤ) (zoom : ℕ) :
    MercatorTiler.GoogleTile (MercatorTiler.GoogleTile tx ty zoom).1
      (MercatorTiler.GoogleTile tx ty zoom).2 zoom = (tx, ty) := by
  simp [MercatorTiler.GoogleTile]

theorem originShift_eq : MercatorTiler.originShift = π * 6378137 := by
  unfold MercatorTiler.originShift; ring

theorem originShift_pos : 0 < MercatorTiler.originShift := by
  rw [originShift_eq]; positivity

theorem originShift_gt : (180 : ℝ) < MercatorTiler.originShift := by
  rw [originShift_eq]
  nlinarith [Real.pi_gt_three]

theorem Resolution_pos (z : ℕ) : 0 < MercatorTiler.Resolution z := by
  unfold MercatorTiler.Resolution MercatorTiler.initialResolution
    MercatorTiler.tileSize
  positivity

theorem Resolution_one :
    MercatorTiler.Resolution 1 = MercatorTiler.originShift / 256 := by
  unfold MercatorTiler.Resolution MercatorTiler.initialResolution
    MercatorTiler.tileSize MercatorTiler.originShift
  ring

/-- Claim C5 counterexample: at tile `(0, 0)` of zoom 1, the mercator
variant's `TileBounds` west component is `-originShift` (EPSG:900913
meters), while the bounds the claim describes — pixel corners converted to
meters and then to lat/lon degrees — have west `-180`; the code's value is
not a geographic longitude at all. -/
theorem claim_C5_counterexample :
    (MercatorTiler.TileBounds 0 0 1).2.1 = -MercatorTiler.originShift ∧
    (MercatorTiler.specTileBoundsDeg 0 0 1).2.1 = -180 ∧
    (MercatorTiler.TileBounds 0 0 1).2.1 < -180 := by
  have hS := originShift_pos
  refine ⟨?_, ?_, ?_⟩
  · simp [MercatorTiler.TileBounds, MercatorTiler.PixelsToMeters]
  · simp only [MercatorTiler.specTileBoundsDeg, MercatorTiler.PixelsToMeters,
      MercatorTiler.MetersToLatLon]
    push_cast
    rw [zero_mul, zero_mul, zero_sub]
    field_simp
  · have : (MercatorTiler.TileBounds 0 0 1).2.1 = -MercatorTiler.originShift := by
      simp [MercatorTiler.TileBounds, MercatorTiler.PixelsToMeters]
    rw [this]
    have := originShift_gt
    linarith

theorem degrees_arctan_lt_ninety (t : ℝ) :
    SlippyTiler.degrees (Real.arctan t) < 90 := by
  have hπ := Real.pi_pos
  have h := Real.arctan_lt_pi_div_two t
  unfold SlippyTiler.degrees
  rw [div_lt_iff₀ hπ]
  nlinarith

theorem neg_ninety_lt_degrees_arctan (t : ℝ) :
    -90 < SlippyTiler.degrees (Real.arctan t) := by
  have hπ := Real.pi_pos
  have h := Real.neg_pi_div_two_lt_arctan t
  unfold SlippyTiler.degrees
  rw [lt_div_iff₀ hπ]
  nlinarith

theorem MercatorToLat_strict_mono {a b : ℝ} (h : a < b) :
    SlippyTiler.MercatorToLat a < SlippyTiler.MercatorToLat b := by
  have hπ := Real.pi_pos
  have h1 : Real.arctan (Real.sinh a) < Real.arctan (Real.sinh b) :=
    Real.arctan_strictMono (Real.sinh_lt_sinh.mpr h)
  unfold SlippyTiler.MercatorToLat SlippyTiler.degrees
  rw [div_lt_div_iff₀ hπ hπ]
  nlinarith

theorem numTiles_pos (z : ℕ) : 0 < SlippyTiler.numTiles z := by
  unfold SlippyTiler.numTiles; positivity

/-- Claim C5 amended: both variants return `(south, west, north, east)`
ordered 4-tuples with `south < north` and `west < east`; the mercator
variant's values are the tile's pixel corners converted to EPSG:900913
meters (no lat/lon conversion), while the slippy variant's are geographic
degrees with latitudes strictly inside `(-90, 90)`. -/
theorem claim_C5_amended (tx ty : ℤ) (z : ℕ) :
    (MercatorTiler.TileBounds tx ty z).1 =
        ty * MercatorTiler.tileSize * MercatorTiler.Resolution z
          - MercatorTiler.originShift ∧
    (MercatorTiler.TileBounds tx ty z).2.1 =
        tx * MercatorTiler.tileSize * MercatorTiler.Resolution z
          - MercatorTiler.originShift ∧
    (MercatorTiler.TileBounds tx ty z).2.2.1 =
        (ty + 1) * MercatorTiler.tileSize * MercatorTiler.Resolution z
          - MercatorTiler.originShift ∧
    (MercatorTiler.TileBounds tx ty z).2.2.2 =
        (tx + 1) * MercatorTiler.tileSize * MercatorTiler.Resolution z
          - MercatorTiler.originShift ∧
    (MercatorTiler.TileBounds tx ty z).1 <
        (MercatorTiler.TileBounds tx ty z).2.2.1 ∧
    (MercatorTiler.TileBounds tx ty z).2.1 <
        (MercatorTiler.TileBounds tx ty z).2.2.2 ∧
    (SlippyTiler.TileBounds tx ty z).1 < (SlippyTiler.TileBounds tx ty z).2.2.1 ∧
    (SlippyTiler.TileBounds tx ty z).2.1 <
        (SlippyTiler.TileBounds tx ty z).2.2.2 ∧
    -90 < (SlippyTiler.TileBounds tx ty z).1 ∧
    (SlippyTiler.TileBounds tx ty z).2.2.1 < 90 := by
  have hres := Resolution_pos z
  have hts : (0 : ℝ) < MercatorTiler.tileSize := by
    unfold MercatorTiler.tileSize; norm_num
  have hn := numTiles_pos z
  have hπ := Real.pi_pos
  refine ⟨?_, ?_, ?_, ?_, ?_, ?_, ?_, ?_, ?_, ?_⟩
  · simp [MercatorTiler.TileBounds, MercatorTiler.PixelsToMeters]
  · simp [MercatorTiler.TileBounds, MercatorTiler.PixelsToMeters]
  · simp [MercatorTiler.TileBounds, MercatorTiler.PixelsToMeters]
  · simp [MercatorTiler.TileBounds, MercatorTiler.PixelsToMeters]
  · simp only [MercatorTiler.TileBounds, MercatorTiler.PixelsToMeters]
    nlinarith
  · simp only [MercatorTiler.TileBounds, MercatorTiler.PixelsToMeters]
    nlinarith
  · simp only [SlippyTiler.TileBounds, SlippyTiler.LatBounds]
    apply MercatorToLat_strict_mono
    have h1 : 0 < 1 / SlippyTiler.numTiles z := by positivity
    nlinarith
  · simp only [SlippyTiler.TileBounds, SlippyTiler.LonBounds]
    have h1 : 0 < 360 / SlippyTiler.numTiles z := by positivity
    linarith
  · simp only [SlippyTiler.TileBounds, SlippyTiler.LatBounds,
      SlippyTiler.MercatorToLat]
    exact neg_ninety_lt_degrees_arctan _
  · simp only [SlippyTiler.TileBounds, SlippyTiler.LatBounds,
      SlippyTiler.MercatorToLat]
    exact degrees_arctan_lt_ninety _

/-- Claim C1, evaluated at the failing input `(lat, lon, zoom) = (0, 100, 1)`
for the mercator variant: `LatLonToTile` maps the point to tile `(1, 0)`,
but `TileLatLonBounds (1, 0, 1)` — the variant's lat/lon tile bounds —
returns west `-180` and east `0`, so the bounds do not contain the point's
longitude `100`.  (`TileLatLonBounds` unpacks the `(miny, minx, maxy, maxx)`
tuple of `TileBounds` into `MetersToLatLon(mx, my)` with the axes swapped.) -/
theorem claim_C1_mercator_roundtrip_failure :
    MercatorTiler.LatLonToTile 0 100 1 = (1, 0) ∧
    (MercatorTiler.TileLatLonBounds 1 0 1).2.1 = -180 ∧
    (MercatorTiler.TileLatLonBounds 1 0 1).2.2.2 = 0 ∧
    ¬ ((MercatorTiler.TileLatLonBounds 1 0 1).2.1 ≤ 100 ∧
       (100 : ℝ) ≤ (MercatorTiler.TileLatLonBounds 1 0 1).2.2.2) := by
  have hS := originShift_pos
  have hS' : MercatorTiler.originShift ≠ 0 := ne_of_gt hS
  have hmy : (MercatorTiler.LatLonToMeters 0 100).2 = 0 := by
    unfold MercatorTiler.LatLonToMeters
    rw [show (90 + (0 : ℝ)) * π / 360 = π / 4 by ring, Real.tan_pi_div_four,
      Real.log_one]
    ring
  have hmx : (MercatorTiler.LatLonToMeters 0 100).1 =
      100 * MercatorTiler.originShift / 180 := rfl
  have hpx : (MercatorTiler.MetersToPixels
      (100 * MercatorTiler.originShift / 180) 0 1).1 / MercatorTiler.tileSize
      = 14 / 9 := by
    unfold MercatorTiler.MetersToPixels MercatorTiler.tileSize
    rw [Resolution_one]
    field_simp
    ring
  have hpy : (MercatorTiler.MetersToPixels
      (100 * MercatorTiler.originShift / 180) 0 1).2 / MercatorTiler.tileSize
      = 1 := by
    unfold MercatorTiler.MetersToPixels MercatorTiler.tileSize
    rw [Resolution_one]
    field_simp
  have hceil : ⌈(14 : ℝ) / 9⌉ = 2 := by
    rw [Int.ceil_eq_iff]
    norm_num
  have hb1 : (MercatorTiler.TileBounds 1 0 1).1 = -MercatorTiler.originShift := by
    simp [MercatorTiler.TileBounds, MercatorTiler.PixelsToMeters]
  have hb221 : (MercatorTiler.TileBounds 1 0 1).2.2.1 = 0 := by
    simp only [MercatorTiler.TileBounds, MercatorTiler.PixelsToMeters,
      MercatorTiler.tileSize, Resolution_one]
    push_cast
    ring
  have hw : (MercatorTiler.TileLatLonBounds 1 0 1).2.1 = -180 := by
    simp only [MercatorTiler.TileLatLonBounds, MercatorTiler.MetersToLatLon]
    rw [hb1]
    field_simp
  have he : (MercatorTiler.TileLatLonBounds 1 0 1).2.2.2 = 0 := by
    simp only [MercatorTiler.TileLatLonBounds, MercatorTiler.MetersToLatLon]
    rw [hb221]
    simp
  refine ⟨?_, hw, he, ?_⟩
  · unfold MercatorTiler.LatLonToTile MercatorTiler.MetersToTile
      MercatorTiler.PixelsToTile
    rw [hmy, hmx, hpx, hpy, hceil, Int.ceil_one]
    norm_num
  · rw [he]
    rintro ⟨-, h⟩
    norm_num at h

theorem sinh_pi_pos : 0 < Real.sinh π :=
  Real.sinh_pos_iff.mpr Real.pi_pos

theorem maxLatitude_pos : 0 < SlippyTiler.maxLatitude := by
  have h1 : 0 < Real.arctan (Real.sinh π) := by
    have := Real.arctan_strictMono sinh_pi_pos
    rwa [Real.arctan_zero] at this
  unfold SlippyTiler.maxLatitude SlippyTiler.degrees
  have hπ := Real.pi_pos
  positivity

theorem radians_maxLatitude :
    SlippyTiler.radians SlippyTiler.maxLatitude =
      Real.arctan (Real.sinh π) := by
  unfold SlippyTiler.radians SlippyTiler.maxLatitude SlippyTiler.degrees
  field_simp

/-- For `θ` strictly inside `(-π/2, π/2)` the slippy `y` formula's
logarithm is the inverse hyperbolic sine of `tan θ`:
`log (tan θ + sec θ) = arsinh (tan θ)`. -/
theorem log_tan_add_sec {θ : ℝ} (h1 : -(π / 2) < θ) (h2 : θ < π / 2) :
    Real.log (Real.tan θ + SlippyTiler.sec θ) =
      Real.arsinh (Real.tan θ) := by
  have hc : 0 < Real.cos θ := Real.cos_pos_of_mem_Ioo ⟨h1, h2⟩
  have hsqrt : Real.sqrt (1 + Real.tan θ ^ 2) = 1 / Real.cos θ := by
    rw [one_div, ← Real.inv_sqrt_one_add_tan_sq hc, inv_inv]
  unfold SlippyTiler.sec
  unfold Real.arsinh
  rw [hsqrt]

/-- Claim C7: the slippy variant's tile count per axis is `2^z`, and for
every in-range input — longitude in `[-180, 180)` and latitude in
`(-maxLatitude, maxLatitude]`, the half-open valid domain induced by the
top-left tile origin — `LatLonToTile` returns tile indices inside
`[0, 2^z - 1]` on both axes. -/
theorem claim_C7_slippy_tile_range (lat lon : ℝ) (z : ℕ)
    (hlon1 : -180 ≤ lon) (hlon2 : lon < 180)
    (hlat1 : -SlippyTiler.maxLatitude < lat)
    (hlat2 : lat ≤ SlippyTiler.maxLatitude) :
    SlippyTiler.numTiles z = 2 ^ z ∧
    0 ≤ (SlippyTiler.LatLonToTile lat lon z).1 ∧
    (SlippyTiler.LatLonToTile lat lon z).1 ≤ 2 ^ z - 1 ∧
    0 ≤ (SlippyTiler.LatLonToTile lat lon z).2 ∧
    (SlippyTiler.LatLonToTile lat lon z).2 ≤ 2 ^ z - 1 := by
  have hπ := Real.pi_pos
  have h2z : (0 : ℝ) < 2 ^ z := by positivity
  have hnum : SlippyTiler.numTiles z = 2 ^ z := rfl
  -- the x ratio lies in [0, 1)
  have hq1 : (0 : ℝ) ≤ (lon + 180) / 360 := by
    apply div_nonneg <;> linarith
  have hq2 : (lon + 180) / 360 < 1 := by
    rw [div_lt_one (by norm_num : (0 : ℝ) < 360)]
    linarith
  have hxr1 : 0 ≤ SlippyTiler.numTiles z * ((lon + 180) / 360) := by
    rw [hnum]; positivity
  have hxr2 : SlippyTiler.numTiles z * ((lon + 180) / 360) < 2 ^ z := by
    rw [hnum]
    calc (2 : ℝ) ^ z * ((lon + 180) / 360) < 2 ^ z * 1 := by
          exact mul_lt_mul_of_pos_left hq2 h2z
      _ = 2 ^ z := mul_one _
  -- the mercator ordinate of the latitude lies in (-π, π]
  have hA2 : Real.arctan (Real.sinh π) < π / 2 := Real.arctan_lt_pi_div_two _
  have hApos : 0 < Real.arctan (Real.sinh π) := by
    have := Real.arctan_strictMono sinh_pi_pos
    rwa [Real.arctan_zero] at this
  have hθle : SlippyTiler.radians lat ≤ Real.arctan (Real.sinh π) := by
    rw [← radians_maxLatitude]
    unfold SlippyTiler.radians
    gcongr
  have hθgt : -Real.arctan (Real.sinh π) < SlippyTiler.radians lat := by
    rw [← radians_maxLatitude]
    unfold SlippyTiler.radians
    rw [show -(SlippyTiler.maxLatitude * π / 180)
        = -SlippyTiler.maxLatitude * π / 180 by ring]
    have := mul_lt_mul_of_pos_right hlat1 hπ
    linarith
  have hθmem1 : -(π / 2) < SlippyTiler.radians lat := by linarith
  have hθmem2 : SlippyTiler.radians lat < π / 2 := lt_of_le_of_lt hθle hA2
  have hlog : Real.log (Real.tan (SlippyTiler.radians lat)
        + SlippyTiler.sec (SlippyTiler.radians lat))
      = Real.arsinh (Real.tan (SlippyTiler.radians lat)) :=
    log_tan_add_sec hθmem1 hθmem2
  have htan_le : Real.tan (SlippyTiler.radians lat) ≤ Real.sinh π := by
    have hmemθ : SlippyTiler.radians lat ∈ Set.Ioo (-(π / 2)) (π / 2) :=
      ⟨hθmem1, hθmem2⟩
    have hmemA : Real.arctan (Real.sinh π) ∈ Set.Ioo (-(π / 2)) (π / 2) :=
      ⟨by linarith, hA2⟩
    have := Real.strictMonoOn_tan.monotoneOn hmemθ hmemA hθle
    rwa [Real.tan_arctan] at this
  have htan_gt : -Real.sinh π < Real.tan (SlippyTiler.radians lat) := by
    have hmemθ : SlippyTiler.radians lat ∈ Set.Ioo (-(π / 2)) (π / 2) :=
      ⟨hθmem1, hθmem2⟩
    have hmemA : -Real.arctan (Real.sinh π) ∈ Set.Ioo (-(π / 2)) (π / 2) :=
      ⟨by linarith, by linarith⟩
    have := Real.strictMonoOn_tan hmemA hmemθ hθgt
    rwa [Real.tan_neg, Real.tan_arctan] at this
  have hm_le : Real.log (Real.tan (SlippyTiler.radians lat)
      + SlippyTiler.sec (SlippyTiler.radians lat)) ≤ π := by
    rw [hlog]
    have := Real.arsinh_le_arsinh.mpr htan_le
    rwa [Real.arsinh_sinh] at this
  have hm_gt : -π < Real.log (Real.tan (SlippyTiler.radians lat)
      + SlippyTiler.sec (SlippyTiler.radians lat)) := by
    rw [hlog]
    have h1 : Real.arsinh (-Real.sinh π)
        < Real.arsinh (Real.tan (SlippyTiler.radians lat)) :=
      Real.arsinh_lt_arsinh.mpr htan_gt
    rwa [← Real.sinh_neg, Real.arsinh_sinh] at h1
  -- the y ratio lies in [0, 1)
  have hyq1 : (0 : ℝ) ≤ (1 - Real.log (Real.tan (SlippyTiler.radians lat)
      + SlippyTiler.sec (SlippyTiler.radians lat)) / π) / 2 := by
    have : Real.log (Real.tan (SlippyTiler.radians lat)
        + SlippyTiler.sec (SlippyTiler.radians lat)) / π ≤ 1 := by
      rw [div_le_one hπ]; exact hm_le
    linarith
  have hyq2 : (1 - Real.log (Real.tan (SlippyTiler.radians lat)
      + SlippyTiler.sec (SlippyTiler.radians lat)) / π) / 2 < 1 := by
    have : -1 < Real.log (Real.tan (SlippyTiler.radians lat)
        + SlippyTiler.sec (SlippyTiler.radians lat)) / π := by
      rw [lt_div_iff₀ hπ]; linarith
    linarith
  have hyr1 : 0 ≤ SlippyTiler.numTiles z
      * ((1 - Real.log (Real.tan (SlippyTiler.radians lat)
          + SlippyTiler.sec (SlippyTiler.radians lat)) / π) / 2) := by
    rw [hnum]; exact mul_nonneg h2z.le hyq1
  have hyr2 : SlippyTiler.numTiles z
      * ((1 - Real.log (Real.tan (SlippyTiler.radians lat)
          + SlippyTiler.sec (SlippyTiler.radians lat)) / π) / 2) < 2 ^ z := by
    rw [hnum]
    calc (2 : ℝ) ^ z * ((1 - Real.log (Real.tan (SlippyTiler.radians lat)
            + SlippyTiler.sec (SlippyTiler.radians lat)) / π) / 2)
        < 2 ^ z * 1 := mul_lt_mul_of_pos_left hyq2 h2z
      _ = 2 ^ z := mul_one _
  -- assemble the tile-index bounds
  have hx_def : (SlippyTiler.LatLonToTile lat lon z).1
      = pyTrunc (SlippyTiler.numTiles z * ((lon + 180) / 360)) := rfl
  have hy_def : (SlippyTiler.LatLonToTile lat lon z).2
      = pyTrunc (SlippyTiler.numTiles z
          * ((1 - Real.log (Real.tan (SlippyTiler.radians lat)
              + SlippyTiler.sec (SlippyTiler.radians lat)) / π) / 2)) := rfl
  refine ⟨hnum, ?_, ?_, ?_, ?_⟩
  · rw [hx_def, pyTrunc, if_pos hxr1]
    exact Int.floor_nonneg.mpr hxr1
  · rw [hx_def, pyTrunc, if_pos hxr1]
    have : ⌊SlippyTiler.numTiles z * ((lon + 180) / 360)⌋ < 2 ^ z := by
      rw [Int.floor_lt]
      push_cast
      exact hxr2
    omega
  · rw [hy_def, pyTrunc, if_pos hyr1]
    exact Int.floor_nonneg.mpr hyr1
  · rw [hy_def, pyTrunc, if_pos hyr1]
    have : ⌊SlippyTiler.numTiles z
        * ((1 - Real.log (Real.tan (SlippyTiler.radians lat)
            + SlippyTiler.sec (SlippyTiler.radians lat)) / π) / 2)⌋
        < 2 ^ z := by
      rw [Int.floor_lt]
      push_cast
      exact hyr2
    omega

theorem getD_set_self {α : Type} (d : α) :
    ∀ (l : List α) (i : ℕ) (v : α), i < l.length → (l.set i v).getD i d = v := by
  intro l
  induction l with
  | nil => intro i v hi; simp at hi
  | cons h t ih =>
    intro i v hi
    cases i with
    | zero => rfl
    | succ i => exact ih i v (by simpa using Nat.lt_of_succ_lt_succ hi)

theorem getD_set_ne {α : Type} (d : α) :
    ∀ (l : List α) (i j : ℕ) (v : α), i ≠ j →
      (l.set i v).getD j d = l.getD j d := by
  intro l
  induction l with
  | nil => intro i j v _; simp
  | cons h t ih =>
    intro i j v hij
    cases i with
    | zero =>
      cases j with
      | zero => exact absurd rfl hij
      | succ j => rfl
    | succ i =>
      cases j with
      | zero => rfl
      | succ j => exact ih i j v (fun hc => hij (by omega))

theorem getD_replicate_nil {α : Type} :
    ∀ (n j : ℕ), (List.replicate n ([] : List α)).getD j [] = [] := by
  intro n
  induction n with
  | zero => intro j; simp
  | succ n ih =>
    intro j
    cases j with
    | zero => rfl
    | succ j => exact ih j

theorem laneOf_cons_zero (K : ℕ) (t : Task) (ts : List Task) :
    laneOf K (t :: ts) 0 = t :: laneOf K ts (K - 1) := by
  simp [laneOf]

theorem laneOf_cons_ne (K : ℕ) (t : Task) (ts : List Task) {r : ℕ}
    (hr : r ≠ 0) : laneOf K (t :: ts) r = laneOf K ts (r - 1) := by
  simp [laneOf, hr]

theorem foldl_rrStep_getD (K : ℕ) (hK : 0 < K) :
    ∀ (ts : List Task) (lanes : List (List Task)) (i : ℕ),
      lanes.length = K → i < K → ∀ j, j < K →
        ((ts.foldl (rrStep K) (lanes, i)).1).getD j []
          = lanes.getD j [] ++ laneOf K ts (resid K i j) := by
  intro ts
  induction ts with
  | nil =>
    intro lanes i _ _ j _
    simp [laneOf]
  | cons t ts ih =>
    intro lanes i hlen hi j hj
    rw [List.foldl_cons]
    have hstep : rrStep K (lanes, i) t
        = (lanes.set i (lanes.getD i [] ++ [t]),
           if i + 1 = K then 0 else i + 1) := rfl
    rw [hstep]
    by_cases hiK : i + 1 = K
    · rw [if_pos hiK]
      rw [ih (lanes.set i (lanes.getD i [] ++ [t])) 0 (by simpa using hlen) hK j hj]
      by_cases hji : j = i
      · subst hji
        rw [getD_set_self [] lanes j _ (by omega)]
        have h1 : resid K j j = 0 := by simp [resid]
        have h2 : resid K 0 j = j := by simp [resid]
        rw [h1, h2]
        have h3 : laneOf K (t :: ts) 0 = t :: laneOf K ts (K - 1) := by
          simp [laneOf]
        rw [h3]
        have h4 : K - 1 = j := by omega
        rw [h4]
        simp
      · rw [getD_set_ne [] lanes i j _ (fun hc => hji hc.symm)]
        have hr : resid K i j ≠ 0 := by
          unfold resid; split_ifs <;> omega
        have h5 : laneOf K (t :: ts) (resid K i j)
            = laneOf K ts (resid K i j - 1) := by
          simp only [laneOf]
          rw [if_neg hr]
        rw [h5]
        congr 2
        unfold resid
        split_ifs <;> omega
    · rw [if_neg hiK]
      rw [ih (lanes.set i (lanes.getD i [] ++ [t])) (i + 1)
        (by simpa using hlen) (by omega) j hj]
      by_cases hji : j = i
      · subst hji
        rw [getD_set_self [] lanes j _ (by omega)]
        have h1 : resid K j j = 0 := by simp [resid]
        rw [h1]
        have h3 : laneOf K (t :: ts) 0 = t :: laneOf K ts (K - 1) := by
          simp [laneOf]
        rw [h3]
        have h2 : resid K (j + 1) j = K - 1 := by
          unfold resid; split_ifs <;> omega
        rw [h2]
        simp
      · rw [getD_set_ne [] lanes i j _ (fun hc => hji hc.symm)]
        have hr : resid K i j ≠ 0 := by
          unfold resid; split_ifs <;> omega
        have h5 : laneOf K (t :: ts) (resid K i j)
            = laneOf K ts (resid K i j - 1) := by
          simp only [laneOf]
          rw [if_neg hr]
        rw [h5]
        congr 2
        unfold resid
        split_ifs <;> omega

theorem getTaskList_length (K : ℕ) :
    ∀ (ts : List Task) (st : List (List Task) × ℕ),
      ((ts.foldl (rrStep K) st).1).length = st.1.length := by
  intro ts
  induction ts with
  | nil => intro st; rfl
  | cons t ts ih =>
    intro st
    rw [List.foldl_cons, ih]
    simp [rrStep]

theorem getTaskList_lanes (K : ℕ) (hK : 0 < K) (mk : ℤ → ℤ → Task)
    (x1 y1 x2 y2 : ℤ) (j : ℕ) (hj : j < K) :
    (getTaskList K mk x1 y1 x2 y2).getD j []
      = laneOf K (gridTasks mk x1 y1 x2 y2) j := by
  unfold getTaskList
  rw [foldl_rrStep_getD K hK _ _ 0 (List.length_replicate _ _) hK j hj]
  rw [getD_replicate_nil]
  have : resid K 0 j = j := by simp [resid]
  rw [this]
  rfl

theorem laneOf_length (K : ℕ) (hK : 0 < K) :
    ∀ (ts : List Task) (r : ℕ), r < K →
      (laneOf K ts r).length = (ts.length + (K - 1 - r)) / K := by
  intro ts
  induction ts with
  | nil =>
    intro r hr
    simp only [laneOf, List.length_nil, Nat.zero_add]
    rw [Nat.div_eq_of_lt (by omega)]
  | cons t ts ih =>
    intro r hr
    by_cases hr0 : r = 0
    · subst hr0
      rw [laneOf_cons_zero]
      simp only [List.length_cons]
      rw [ih (K - 1) (by omega)]
      have h1 : K - 1 - (K - 1) = 0 := by omega
      rw [h1, Nat.add_zero]
      have h2 : ts.length + 1 + (K - 1 - 0) = ts.length + K := by omega
      rw [h2, Nat.add_div_right _ hK]
      simp
    · rw [laneOf_cons_ne K t ts hr0]
      simp only [List.length_cons]
      rw [ih (r - 1) (by omega)]
      congr 1
      omega

theorem succ_mod_eq_zero_side {K p : ℕ} (hK : 0 < K) (h : (p + 1) % K = 0) :
    p % K = K - 1 ∧ p / K = (p + 1) / K - 1 ∧ 1 ≤ (p + 1) / K := by
  obtain ⟨q, hq⟩ := Nat.dvd_of_mod_eq_zero h
  cases q with
  | zero => rw [Nat.mul_zero] at hq; omega
  | succ q =>
    rw [Nat.mul_succ] at hq
    have hq' : p = K * q + (K - 1) := by omega
    have hpk : p / K = q := by
      rw [hq', Nat.mul_add_div hK, Nat.div_eq_of_lt (by omega), Nat.add_zero]
    have hpk1 : (p + 1) / K = q + 1 := by
      rw [hq, Nat.mul_add_div hK, Nat.div_self hK]
    have hmod : p % K = K - 1 := by
      rw [hq', Nat.mul_add_mod]
      exact Nat.mod_eq_of_lt (by omega)
    exact ⟨hmod, by omega, by omega⟩

theorem succ_mod_ne_zero_side {K p : ℕ} (hK : 0 < K) (h : (p + 1) % K ≠ 0) :
    p % K + 1 = (p + 1) % K ∧ p / K = (p + 1) / K := by
  have h1 := Nat.div_add_mod (p + 1) K
  have h2 : (p + 1) % K < K := Nat.mod_lt _ hK
  have hb : 1 ≤ (p + 1) % K := by omega
  have hp : p = K * ((p + 1) / K) + ((p + 1) % K - 1) := by omega
  have hm : p % K = (p + 1) % K - 1 := by
    conv_lhs => rw [hp]
    rw [Nat.mul_add_mod]
    exact Nat.mod_eq_of_lt (by omega)
  have hd : p / K = (p + 1) / K := by
    conv_lhs => rw [hp]
    have hlt : ((p + 1) % K - 1) / K = 0 := Nat.div_eq_of_lt (by omega)
    rw [Nat.mul_add_div hK, hlt, Nat.add_zero]
  exact ⟨by omega, hd⟩

theorem laneOf_getD (K : ℕ) (hK : 0 < K) (d : Task) :
    ∀ (ts : List Task) (p : ℕ), p < ts.length →
      ts.getD p d = (laneOf K ts (p % K)).getD (p / K) d := by
  intro ts
  induction ts with
  | nil => intro p hp; simp at hp
  | cons t ts ih =>
    intro p hp
    cases p with
    | zero =>
      simp [laneOf]
    | succ p =>
      have hp' : p < ts.length := by
        simpa using Nat.lt_of_succ_lt_succ hp
      have hL : (t :: ts).getD (p + 1) d = ts.getD p d := rfl
      by_cases h0 : (p + 1) % K = 0
      · obtain ⟨hm, hd, h1⟩ := succ_mod_eq_zero_side hK h0
        rw [h0, hL, ih p hp']
        rw [laneOf_cons_zero]
        obtain ⟨m, hm'⟩ : ∃ m, (p + 1) / K = m + 1 := ⟨(p + 1) / K - 1, by omega⟩
        rw [hm']
        have hcons : (t :: laneOf K ts (K - 1)).getD (m + 1) d
            = (laneOf K ts (K - 1)).getD m d := rfl
        rw [hcons, hm]
        rw [show p / K = m from by omega]
      · obtain ⟨hm, hd⟩ := succ_mod_ne_zero_side hK h0
        rw [hL, ih p hp']
        rw [laneOf_cons_ne K t ts h0]
        rw [show (p + 1) % K - 1 = p % K from by omega, ← hd]

/-- Claim C2: `getTaskList` enumerates tasks with `y` from `min(y1,y2)` to
`max(y1,y2)` and, within each `y`, `x` from `x1` to `x2` (the list
`gridTasks`), and splits them round-robin over `K` lanes: there are `K`
lanes; lane `j` is exactly the enumeration positions congruent to `j`
mod `K`, in order; every lane holds `⌊N/K⌋` or `⌈N/K⌉ = (N + K - 1)/K`
tasks; and enumeration position `p` is found in lane `p % K` at offset
`p / K`, so interleaving the lanes round-robin reconstructs the
enumeration. -/
theorem claim_C2_taskList_partition (K : ℕ) (hK : 0 < K)
    (mk : ℤ → ℤ → Task) (x1 y1 x2 y2 : ℤ) (j : ℕ) (hj : j < K)
    (p : ℕ) (hp : p < (gridTasks mk x1 y1 x2 y2).length) (d : Task) :
    (getTaskList K mk x1 y1 x2 y2).length = K ∧
    (getTaskList K mk x1 y1 x2 y2).getD j []
      = laneOf K (gridTasks mk x1 y1 x2 y2) j ∧
    (gridTasks mk x1 y1 x2 y2).length / K
      ≤ ((getTaskList K mk x1 y1 x2 y2).getD j []).length ∧
    ((getTaskList K mk x1 y1 x2 y2).getD j []).length
      ≤ ((gridTasks mk x1 y1 x2 y2).length + (K - 1)) / K ∧
    (gridTasks mk x1 y1 x2 y2).getD p d
      = ((getTaskList K mk x1 y1 x2 y2).getD (p % K) []).getD (p / K) d := by
  refine ⟨?_, getTaskList_lanes K hK mk x1 y1 x2 y2 j hj, ?_, ?_, ?_⟩
  · unfold getTaskList
    rw [getTaskList_length]
    exact List.length_replicate _ _
  · rw [getTaskList_lanes K hK mk x1 y1 x2 y2 j hj,
      laneOf_length K hK _ j hj]
    exact Nat.div_le_div_right (Nat.le_add_right _ _)
  · rw [getTaskList_lanes K hK mk x1 y1 x2 y2 j hj,
      laneOf_length K hK _ j hj]
    exact Nat.div_le_div_right (by omega)
  · rw [getTaskList_lanes K hK mk x1 y1 x2 y2 (p % K) (Nat.mod_lt _ hK)]
    exact laneOf_getD K hK d _ p hp

/-- Claim C2 witness: the spec's own example — a 2×3 grid (`x` in `0..1`,
`y` in `0..2`) split over 2 lanes — instantiating the partition theorem at
lane 0 and enumeration position 3, with the two lanes evaluated
explicitly: lane 0 holds positions 0, 2, 4 and lane 1 holds 1, 3, 5. -/
theorem claim_C2_taskList_partition_witness :
    (0 < 2 ∧ 0 < 2 ∧ 3 < (gridTasks exMk 0 0 1 2).length) ∧
    ((getTaskList 2 exMk 0 0 1 2).length = 2 ∧
     (getTaskList 2 exMk 0 0 1 2).getD 0 []
       = laneOf 2 (gridTasks exMk 0 0 1 2) 0 ∧
     (gridTasks exMk 0 0 1 2).length / 2
       ≤ ((getTaskList 2 exMk 0 0 1 2).getD 0 []).length ∧
     ((getTaskList 2 exMk 0 0 1 2).getD 0 []).length
       ≤ ((gridTasks exMk 0 0 1 2).length + (2 - 1)) / 2 ∧
     (gridTasks exMk 0 0 1 2).getD 3 exTask
       = ((getTaskList 2 exMk 0 0 1 2).getD (3 % 2) []).getD (3 / 2) exTask) ∧
    (getTaskList 2 exMk 0 0 1 2).getD 0 []
      = [exMk 0 0, exMk 0 1, exMk 0 2] ∧
    (getTaskList 2 exMk 0 0 1 2).getD 1 []
      = [exMk 1 0, exMk 1 1, exMk 1 2] :=
  ⟨⟨by norm_num, by norm_num, by decide⟩,
   claim_C2_taskList_partition 2 (by norm_num) exMk 0 0 1 2 0 (by norm_num)
     3 (by decide) exTask,
   by decide, by decide⟩

/-- Claim C7 witness: the point `(lat, lon) = (0, 0)` at zoom 1 satisfies
the domain hypotheses and its slippy tile indices lie in `[0, 2^1 - 1]`. -/
theorem claim_C7_slippy_tile_range_witness :
    ((-180 : ℝ) ≤ 0 ∧ (0 : ℝ) < 180 ∧ -SlippyTiler.maxLatitude < 0 ∧
      (0 : ℝ) ≤ SlippyTiler.maxLatitude) ∧
    (SlippyTiler.numTiles 1 = 2 ^ 1 ∧
     0 ≤ (SlippyTiler.LatLonToTile 0 0 1).1 ∧
     (SlippyTiler.LatLonToTile 0 0 1).1 ≤ 2 ^ 1 - 1 ∧
     0 ≤ (SlippyTiler.LatLonToTile 0 0 1).2 ∧
     (SlippyTiler.LatLonToTile 0 0 1).2 ≤ 2 ^ 1 - 1) :=
  ⟨⟨by norm_num, by norm_num, neg_lt_zero.mpr maxLatitude_pos,
      maxLatitude_pos.le⟩,
   claim_C7_slippy_tile_range 0 0 1 (by norm_num) (by norm_num)
     (neg_lt_zero.mpr maxLatitude_pos) maxLatitude_pos.le⟩

/-- Claim C6: when an AOI geometry is configured and the tile's bounds do
not intersect it, the worker's loop body leaves its state untouched — no
fetch attempt is recorded, the filesystem is unchanged (no file appears at
the task's destination), and nothing is appended to the `_tiles` result
list. -/
theorem claim_C6_aoi_skip {G : Type} (cfg : ScraperCfg G) (g : G)
    (st : ScraperState) (t : Task)
    (hg : cfg.geometry = some g)
    (hi : cfg.intersectsFn (cfg.tileBounds t.xyz) g = false) :
    tileStep cfg st t = st := by
  by_cases hab : st.aborted
  · simp [tileStep, hab]
  · simp [tileStep, hab, hg, hi]

/-- Claim C6 witness: a concrete configuration whose AOI polygon meets no
tile; the loop body is the identity on the worker state. -/
theorem claim_C6_aoi_skip_witness :
    (exCfgNoHit.geometry = some () ∧
     exCfgNoHit.intersectsFn (exCfgNoHit.tileBounds exTask1.xyz) () = false) ∧
    tileStep exCfgNoHit exState exTask1 = exState :=
  ⟨⟨rfl, rfl⟩, claim_C6_aoi_skip exCfgNoHit () exState exTask1 rfl rfl⟩

/-- Claim C4: if the destination did not already exist and all three fetch
attempts fail, then after `getTile` finishes the destination file state is
`absent` — a partially written file has been deleted and no zero-byte or
truncated file remains (this holds both when `os.remove` succeeds and when
it itself raises because no attempt ever created the file). -/
theorem claim_C4_failed_fetch_leaves_no_file (a b c : FetchResult)
    (ha : a ≠ .ok) (hb : b ≠ .ok) (hc : c ≠ .ok) :
    (getTile [a, b, c] .absent).1 = .absent := by
  cases a <;> cases b <;> cases c <;> simp_all [getTile, getTileLoop]

/-- Claim C4 witness: three failing attempts, the last of which leaves a
partial file; `getTile` deletes it. -/
theorem claim_C4_failed_fetch_leaves_no_file_witness :
    (FetchResult.failAfterOpen ≠ FetchResult.ok ∧
     FetchResult.failBeforeOpen ≠ FetchResult.ok ∧
     FetchResult.failAfterOpen ≠ FetchResult.ok) ∧
    (getTile [.failAfterOpen, .failBeforeOpen, .failAfterOpen]
        .absent).1 = .absent :=
  ⟨⟨by decide, by decide, by decide⟩,
   claim_C4_failed_fetch_leaves_no_file _ _ _ (by decide) (by decide)
     (by decide)⟩

/-- Claim C3, evaluated at the failing input: a lane `[exTask1, exTask2]`
where `exTask1`'s three fetch attempts all raise before the destination
file is created.  After the retries, `getTile`'s unguarded
`os.remove(pathname)` raises `FileNotFoundError`, which `run` does not
catch: the lane aborts, so `exTask2` is never fetched, its file is never
created and no tile is recorded — although the same worker run on
`[exTask2]` alone produces its georeferenced tile. -/
theorem claim_C3_single_task_failure_aborts_lane :
    (scraperRun exCfgNoGeom (fun _ => .absent) [exTask1, exTask2]).aborted
      = true ∧
    (scraperRun exCfgNoGeom (fun _ => .absent) [exTask1, exTask2]).fetched
      = ["u1", "u1", "u1"] ∧
    (scraperRun exCfgNoGeom (fun _ => .absent) [exTask1, exTask2]).fs "p2"
      = .absent ∧
    (scraperRun exCfgNoGeom (fun _ => .absent) [exTask1, exTask2]).tiles
      = [] ∧
    (scraperRun exCfgNoGeom (fun _ => .absent) [exTask2]).tiles
      = [tifName exTask2] := by
  refine ⟨?_, ?_, ?_, ?_, ?_⟩ <;> rfl

theorem intRange_empty {a b : ℤ} (h : b < a) : intRange a b = [] := by
  unfold intRange
  rw [show (b + 1 - a).toNat = 0 from by omega]
  rfl

theorem gridTasks_empty (mk : ℤ → ℤ → Task) (x1 y1 x2 y2 : ℤ)
    (h : x2 < x1) : gridTasks mk x1 y1 x2 y2 = [] := by
  unfold gridTasks
  rw [intRange_empty h]
  simp

theorem getTaskList_of_empty_grid (K : ℕ) (mk : ℤ → ℤ → Task)
    (x1 y1 x2 y2 : ℤ) (h : x2 < x1) :
    getTaskList K mk x1 y1 x2 y2 = List.replicate K [] := by
  unfold getTaskList
  rw [gridTasks_empty mk x1 y1 x2 y2 h]
  rfl

theorem flatten_replicate_nil :
    ∀ n : ℕ, (List.replicate n ([] : List String)).flatten = [] := by
  intro n
  induction n with
  | zero => rfl
  | succ n ih => simp [List.replicate_succ, ih]

/-- Claim C8 amended: `process` performs no empty-range check.  When the
tile range is empty (`x2 < x1`, so the partition yields no tasks), it
still starts and joins its workers, invokes the merge once with an empty
raster list, and — unless the external merge call raises — returns
normally, reporting nothing to the caller. -/
theorem claim_C8_amended {G : Type} (cfg : ScraperCfg G)
    (fs0 : String → FileState) (K : ℕ) (mk : ℤ → ℤ → Task)
    (x1 y1 x2 y2 : ℤ) (tileGlob : List String) (de : Bool)
    (mo : MergeOutcome) (hx : x2 < x1) :
    ProcEvent.warp [] ∈
      (processRun K (scraperWorker cfg fs0) mk x1 y1 x2 y2
        tileGlob de mo).1 ∧
    (processRun K (scraperWorker cfg fs0) mk x1 y1 x2 y2 tileGlob de mo).2
      = (if mo = MergeOutcome.raises then false else true) := by
  have htl := getTaskList_of_empty_grid K mk x1 y1 x2 y2 hx
  have hmap : (List.replicate K ([] : List Task)).map (scraperWorker cfg fs0)
      = List.replicate K [] := by
    rw [List.map_replicate]
    rfl
  unfold processRun procPrefix
  rw [htl, hmap, flatten_replicate_nil]
  constructor
  · by_cases hmo : mo = MergeOutcome.raises <;> simp [hmo]
  · by_cases hmo : mo = MergeOutcome.raises <;> simp [hmo]

/-- Claim C8 amended witness: empty range `x1 = 1 > 0 = x2` with a raising
merge call. -/
theorem claim_C8_amended_witness :
    ((0 : ℤ) < 1) ∧
    (ProcEvent.warp [] ∈
      (processRun 2 (scraperWorker exCfgNoGeom (fun _ => .absent)) exMk
        1 0 0 0 ["f"] true MergeOutcome.raises).1 ∧
     (processRun 2 (scraperWorker exCfgNoGeom (fun _ => .absent)) exMk
        1 0 0 0 ["f"] true MergeOutcome.raises).2
       = (if MergeOutcome.raises = MergeOutcome.raises then false
          else true)) :=
  ⟨by norm_num,
   claim_C8_amended exCfgNoGeom (fun _ => .absent) 2 exMk 1 0 0 0 ["f"]
     true MergeOutcome.raises (by norm_num)⟩

/-- Claim C8 counterexample: with an empty tile range (`x1 = 1 > 0 = x2`)
and the merge call failing without raising (as `gdal.Warp` does when gdal
exceptions are not enabled — and this repository never enables them),
`process` reaches the merge step with an empty raster list and returns
normally: processing does not fail and no error is reported to the
caller. -/
theorem claim_C8_counterexample :
    ProcEvent.warp [] ∈
      (processRun 1 (scraperWorker exCfgNoGeom (fun _ => .absent)) exMk
        1 0 0 0 [] true MergeOutcome.returnsFailure).1 ∧
    (processRun 1 (scraperWorker exCfgNoGeom (fun _ => .absent)) exMk
      1 0 0 0 [] true MergeOutcome.returnsFailure).2 = true := by
  constructor
  · decide
  · decide

/-- Claim C9 amended: in every `process` run the single merge call comes
strictly after every worker join (all `joinWorker` events lie in the trace
segment before the `warp` event, and no join occurs after it), and the
cleanup runs after the merge call returns — regardless of whether the
merge succeeded, since its result is never inspected: when the merge
raises, no file is deleted and `process` propagates the exception; when
it returns (successfully or not), every globbed `tile*` file is deleted
and `process` returns normally. -/
theorem claim_C9_amended (K : ℕ) (worker : List Task → List String)
    (mk : ℤ → ℤ → Task) (x1 y1 x2 y2 : ℤ) (tileGlob : List String)
    (de : Bool) (mo : MergeOutcome) :
    ∃ pre post,
      (processRun K worker mk x1 y1 x2 y2 tileGlob de mo).1
        = pre ++ ProcEvent.warp
            (((getTaskList K mk x1 y1 x2 y2).map worker).flatten) :: post ∧
      (∀ i, i < (getTaskList K mk x1 y1 x2 y2).length →
        ProcEvent.joinWorker i ∈ pre) ∧
      (∀ e ∈ post, ∀ i, e ≠ ProcEvent.joinWorker i) ∧
      (mo = MergeOutcome.raises → post = [] ∧
        (processRun K worker mk x1 y1 x2 y2 tileGlob de mo).2 = false) ∧
      (mo ≠ MergeOutcome.raises →
        (∀ f ∈ tileGlob, ProcEvent.removeFile f ∈ post) ∧
        (processRun K worker mk x1 y1 x2 y2 tileGlob de mo).2 = true) := by
  refine ⟨ProcEvent.mkdir ::
      ((List.range (getTaskList K mk x1 y1 x2 y2).length).map
          ProcEvent.startWorker ++
       (List.range (getTaskList K mk x1 y1 x2 y2).length).map
          ProcEvent.joinWorker),
    (if mo = MergeOutcome.raises then []
     else tileGlob.map ProcEvent.removeFile ++
       (if de then [ProcEvent.rmdir] else [])),
    ?_, ?_, ?_, ?_, ?_⟩
  · unfold processRun procPrefix
    by_cases hmo : mo = MergeOutcome.raises <;> simp [hmo]
  · intro i hi
    exact List.mem_cons_of_mem _
      (List.mem_append_right _
        (List.mem_map.mpr ⟨i, List.mem_range.mpr hi, rfl⟩))
  · intro e he i
    by_cases hmo : mo = MergeOutcome.raises
    · rw [if_pos hmo] at he
      simp at he
    · rw [if_neg hmo] at he
      rcases List.mem_append.mp he with h | h
      · rcases List.mem_map.mp h with ⟨f, -, rfl⟩
        simp
      · by_cases hd : de
        · rw [if_pos hd] at h
          simp only [List.mem_singleton] at h
          subst h
          simp
        · rw [if_neg hd] at h
          simp at h
  · intro hmo
    refine ⟨if_pos hmo, ?_⟩
    unfold processRun
    rw [if_pos hmo]
  · intro hmo
    rw [if_neg hmo]
    refine ⟨?_, ?_⟩
    · intro f hf
      exact List.mem_append_left _ (List.mem_map.mpr ⟨f, hf, rfl⟩)
    · unfold processRun
      rw [if_neg hmo]

/-- Claim C9 amended witness: a concrete run with one lane, one globbed
tile file and a merge call that returns success. -/
theorem claim_C9_amended_witness :
    ∃ pre post,
      (processRun 1 (scraperWorker exCfgNoGeom (fun _ => .absent)) exMk
          1 0 0 0 ["g"] false MergeOutcome.returnsSuccess).1
        = pre ++ ProcEvent.warp
            (((getTaskList 1 exMk 1 0 0 0).map
              (scraperWorker exCfgNoGeom (fun _ => .absent))).flatten)
            :: post ∧
      (∀ i, i < (getTaskList 1 exMk 1 0 0 0).length →
        ProcEvent.joinWorker i ∈ pre) ∧
      (∀ e ∈ post, ∀ i, e ≠ ProcEvent.joinWorker i) ∧
      (MergeOutcome.returnsSuccess = MergeOutcome.raises → post = [] ∧
        (processRun 1 (scraperWorker exCfgNoGeom (fun _ => .absent)) exMk
          1 0 0 0 ["g"] false MergeOutcome.returnsSuccess).2 = false) ∧
      (MergeOutcome.returnsSuccess ≠ MergeOutcome.raises →
        (∀ f ∈ ["g"], ProcEvent.removeFile f ∈ post) ∧
        (processRun 1 (scraperWorker exCfgNoGeom (fun _ => .absent)) exMk
          1 0 0 0 ["g"] false MergeOutcome.returnsSuccess).2 = true) :=
  claim_C9_amended 1 (scraperWorker exCfgNoGeom (fun _ => .absent)) exMk
    1 0 0 0 ["g"] false MergeOutcome.returnsSuccess

/-- Claim C9 counterexample: when the merge call fails without raising
(`gdal.Warp` returning `None`, the gdal default in this repository, whose
result `process` never inspects), the intermediate tile file is deleted
anyway and `process` returns normally — the claim's "if the merge fails,
the intermediate tiles are left in place" is false on the code. -/
theorem claim_C9_counterexample :
    ProcEvent.removeFile "g" ∈
      (processRun 1 (scraperWorker exCfgNoGeom (fun _ => .absent)) exMk
        1 0 0 0 ["g"] false MergeOutcome.returnsFailure).1 ∧
    (processRun 1 (scraperWorker exCfgNoGeom (fun _ => .absent)) exMk
      1 0 0 0 ["g"] false MergeOutcome.returnsFailure).2 = true := by
  constructor
  · decide
  · decide

theorem MercatorToLat_mono {a b : ℝ} (h : a ≤ b) :
    SlippyTiler.MercatorToLat a ≤ SlippyTiler.MercatorToLat b := by
  rcases eq_or_lt_of_le h with rfl | h
  · exact le_refl _
  · exact (MercatorToLat_strict_mono h).le

/-- `MercatorToLat` inverts the slippy `y` formula's mercator ordinate:
for `radians lat` strictly inside `(-π/2, π/2)`,
`MercatorToLat (log (tan (radians lat) + sec (radians lat))) = lat`. -/
theorem MercatorToLat_log_tan_add_sec (lat : ℝ)
    (h1 : -(π / 2) < SlippyTiler.radians lat)
    (h2 : SlippyTiler.radians lat < π / 2) :
    SlippyTiler.MercatorToLat
      (Real.log (Real.tan (SlippyTiler.radians lat)
        + SlippyTiler.sec (SlippyTiler.radians lat))) = lat := by
  rw [log_tan_add_sec h1 h2]
  unfold SlippyTiler.MercatorToLat
  rw [Real.sinh_arsinh, Real.arctan_tan h1 h2]
  unfold SlippyTiler.degrees SlippyTiler.radians
  field_simp

/-- Supporting result for claim C1: the slippy variant does satisfy
round-trip containment.  For every in-range `(lat, lon, zoom)`,
`TileBounds (LatLonToTile lat lon z) z` contains the point:
`south ≤ lat ≤ north` and `west ≤ lon ≤ east`. -/
theorem slippy_roundtrip_containment (lat lon : ℝ) (z : ℕ)
    (hlon1 : -180 ≤ lon) (_hlon2 : lon < 180)
    (hlat1 : -SlippyTiler.maxLatitude < lat)
    (hlat2 : lat ≤ SlippyTiler.maxLatitude) :
    (SlippyTiler.TileBounds (SlippyTiler.LatLonToTile lat lon z).1
        (SlippyTiler.LatLonToTile lat lon z).2 z).1 ≤ lat ∧
    lat ≤ (SlippyTiler.TileBounds (SlippyTiler.LatLonToTile lat lon z).1
        (SlippyTiler.LatLonToTile lat lon z).2 z).2.2.1 ∧
    (SlippyTiler.TileBounds (SlippyTiler.LatLonToTile lat lon z).1
        (SlippyTiler.LatLonToTile lat lon z).2 z).2.1 ≤ lon ∧
    lon ≤ (SlippyTiler.TileBounds (SlippyTiler.LatLonToTile lat lon z).1
        (SlippyTiler.LatLonToTile lat lon z).2 z).2.2.2 := by
  have hπ := Real.pi_pos
  have hπ' : (π : ℝ) ≠ 0 := ne_of_gt hπ
  have hn : (0 : ℝ) < SlippyTiler.numTiles z := numTiles_pos z
  have hn' : SlippyTiler.numTiles z ≠ 0 := ne_of_gt hn
  -- domain facts for the latitude, as in the C7 proof
  have hA2 : Real.arctan (Real.sinh π) < π / 2 := Real.arctan_lt_pi_div_two _
  have hθle : SlippyTiler.radians lat ≤ Real.arctan (Real.sinh π) := by
    rw [← radians_maxLatitude]
    unfold SlippyTiler.radians
    gcongr
  have hθgt : -Real.arctan (Real.sinh π) < SlippyTiler.radians lat := by
    rw [← radians_maxLatitude]
    unfold SlippyTiler.radians
    rw [show -(SlippyTiler.maxLatitude * π / 180)
        = -SlippyTiler.maxLatitude * π / 180 by ring]
    have := mul_lt_mul_of_pos_right hlat1 hπ
    linarith
  have hApos : 0 < Real.arctan (Real.sinh π) := by
    have := Real.arctan_strictMono sinh_pi_pos
    rwa [Real.arctan_zero] at this
  have hθ1 : -(π / 2) < SlippyTiler.radians lat := by linarith
  have hθ2 : SlippyTiler.radians lat < π / 2 := lt_of_le_of_lt hθle hA2
  have hm_le : Real.log (Real.tan (SlippyTiler.radians lat)
      + SlippyTiler.sec (SlippyTiler.radians lat)) ≤ π := by
    rw [log_tan_add_sec hθ1 hθ2]
    have htan_le : Real.tan (SlippyTiler.radians lat) ≤ Real.sinh π := by
      have := Real.strictMonoOn_tan.monotoneOn ⟨hθ1, hθ2⟩
        ⟨by linarith, hA2⟩ hθle
      rwa [Real.tan_arctan] at this
    have := Real.arsinh_le_arsinh.mpr htan_le
    rwa [Real.arsinh_sinh] at this
  -- nonnegativity of the raw x and y values (so `int()` is the floor)
  have hxq1 : (0 : ℝ) ≤ SlippyTiler.numTiles z * ((lon + 180) / 360) := by
    have : (0 : ℝ) ≤ (lon + 180) / 360 := by
      apply div_nonneg <;> linarith
    positivity
  have hyq1 : (0 : ℝ) ≤ SlippyTiler.numTiles z
      * ((1 - Real.log (Real.tan (SlippyTiler.radians lat)
          + SlippyTiler.sec (SlippyTiler.radians lat)) / π) / 2) := by
    have h1 : Real.log (Real.tan (SlippyTiler.radians lat)
        + SlippyTiler.sec (SlippyTiler.radians lat)) / π ≤ 1 := by
      rw [div_le_one hπ]; exact hm_le
    have h2 : (0 : ℝ) ≤ (1 - Real.log (Real.tan (SlippyTiler.radians lat)
        + SlippyTiler.sec (SlippyTiler.radians lat)) / π) / 2 := by linarith
    positivity
  have hx_def : (SlippyTiler.LatLonToTile lat lon z).1
      = ⌊SlippyTiler.numTiles z * ((lon + 180) / 360)⌋ := by
    have h0 : (SlippyTiler.LatLonToTile lat lon z).1
        = pyTrunc (SlippyTiler.numTiles z * ((lon + 180) / 360)) := rfl
    rw [h0, pyTrunc, if_pos hxq1]
  have hy_def : (SlippyTiler.LatLonToTile lat lon z).2
      = ⌊SlippyTiler.numTiles z
          * ((1 - Real.log (Real.tan (SlippyTiler.radians lat)
              + SlippyTiler.sec (SlippyTiler.radians lat)) / π) / 2)⌋ := by
    have h0 : (SlippyTiler.LatLonToTile lat lon z).2
        = pyTrunc (SlippyTiler.numTiles z
            * ((1 - Real.log (Real.tan (SlippyTiler.radians lat)
                + SlippyTiler.sec (SlippyTiler.radians lat)) / π) / 2)) := rfl
    rw [h0, pyTrunc, if_pos hyq1]
  -- the mercator ordinate is recovered exactly from the y ratio
  have hm_eq : Real.log (Real.tan (SlippyTiler.radians lat)
        + SlippyTiler.sec (SlippyTiler.radians lat))
      = π * (1 - 2 * ((1 - Real.log (Real.tan (SlippyTiler.radians lat)
          + SlippyTiler.sec (SlippyTiler.radians lat)) / π) / 2)) := by
    field_simp
    ring
  refine ⟨?_, ?_, ?_, ?_⟩
  -- south ≤ lat
  · show (SlippyTiler.LatBounds (SlippyTiler.LatLonToTile lat lon z).2 z).2 ≤ lat
    rw [hy_def]
    unfold SlippyTiler.LatBounds
    have hfloor := Int.lt_floor_add_one (SlippyTiler.numTiles z
      * ((1 - Real.log (Real.tan (SlippyTiler.radians lat)
          + SlippyTiler.sec (SlippyTiler.radians lat)) / π) / 2))
    have hu_lt : (1 - Real.log (Real.tan (SlippyTiler.radians lat)
          + SlippyTiler.sec (SlippyTiler.radians lat)) / π) / 2
        < ((⌊SlippyTiler.numTiles z
            * ((1 - Real.log (Real.tan (SlippyTiler.radians lat)
                + SlippyTiler.sec (SlippyTiler.radians lat)) / π) / 2)⌋ : ℝ) + 1)
          / SlippyTiler.numTiles z := by
      rw [div_lt_div_iff₀ (by norm_num : (0:ℝ) < 2) hn]
      nlinarith [hfloor]
    have key : π * (1 - 2 * ((⌊SlippyTiler.numTiles z
          * ((1 - Real.log (Real.tan (SlippyTiler.radians lat)
              + SlippyTiler.sec (SlippyTiler.radians lat)) / π) / 2)⌋ : ℝ)
            * (1 / SlippyTiler.numTiles z) + 1 / SlippyTiler.numTiles z))
        ≤ Real.log (Real.tan (SlippyTiler.radians lat)
            + SlippyTiler.sec (SlippyTiler.radians lat)) := by
      have hYn : (⌊SlippyTiler.numTiles z
            * ((1 - Real.log (Real.tan (SlippyTiler.radians lat)
                + SlippyTiler.sec (SlippyTiler.radians lat)) / π) / 2)⌋ : ℝ)
              * (1 / SlippyTiler.numTiles z) + 1 / SlippyTiler.numTiles z
          = ((⌊SlippyTiler.numTiles z
              * ((1 - Real.log (Real.tan (SlippyTiler.radians lat)
                  + SlippyTiler.sec (SlippyTiler.radians lat)) / π) / 2)⌋ : ℝ) + 1)
            / SlippyTiler.numTiles z := by
        ring
      rw [hYn]
      conv_rhs => rw [hm_eq]
      have hprod := mul_pos hπ (sub_pos.mpr hu_lt)
      nlinarith [hprod]
    calc SlippyTiler.MercatorToLat (π * (1 - 2 * ((⌊SlippyTiler.numTiles z
          * ((1 - Real.log (Real.tan (SlippyTiler.radians lat)
              + SlippyTiler.sec (SlippyTiler.radians lat)) / π) / 2)⌋ : ℝ)
            * (1 / SlippyTiler.numTiles z) + 1 / SlippyTiler.numTiles z)))
        ≤ SlippyTiler.MercatorToLat
            (Real.log (Real.tan (SlippyTiler.radians lat)
              + SlippyTiler.sec (SlippyTiler.radians lat))) :=
          MercatorToLat_mono key
      _ = lat := MercatorToLat_log_tan_add_sec lat hθ1 hθ2
  -- lat ≤ north
  · show lat ≤ (SlippyTiler.LatBounds (SlippyTiler.LatLonToTile lat lon z).2 z).1
    rw [hy_def]
    unfold SlippyTiler.LatBounds
    have hfloor := Int.floor_le (SlippyTiler.numTiles z
      * ((1 - Real.log (Real.tan (SlippyTiler.radians lat)
          + SlippyTiler.sec (SlippyTiler.radians lat)) / π) / 2))
    have hu_ge : (⌊SlippyTiler.numTiles z
          * ((1 - Real.log (Real.tan (SlippyTiler.radians lat)
              + SlippyTiler.sec (SlippyTiler.radians lat)) / π) / 2)⌋ : ℝ)
            / SlippyTiler.numTiles z
        ≤ (1 - Real.log (Real.tan (SlippyTiler.radians lat)
            + SlippyTiler.sec (SlippyTiler.radians lat)) / π) / 2 := by
      rw [div_le_div_iff₀ hn (by norm_num : (0:ℝ) < 2)]
      nlinarith [hfloor]
    have key : Real.log (Real.tan (SlippyTiler.radians lat)
          + SlippyTiler.sec (SlippyTiler.radians lat))
        ≤ π * (1 - 2 * ((⌊SlippyTiler.numTiles z
            * ((1 - Real.log (Real.tan (SlippyTiler.radians lat)
                + SlippyTiler.sec (SlippyTiler.radians lat)) / π) / 2)⌋ : ℝ)
              * (1 / SlippyTiler.numTiles z))) := by
      have hYn : (⌊SlippyTiler.numTiles z
            * ((1 - Real.log (Real.tan (SlippyTiler.radians lat)
                + SlippyTiler.sec (SlippyTiler.radians lat)) / π) / 2)⌋ : ℝ)
              * (1 / SlippyTiler.numTiles z)
          = (⌊SlippyTiler.numTiles z
              * ((1 - Real.log (Real.tan (SlippyTiler.radians lat)
                  + SlippyTiler.sec (SlippyTiler.radians lat)) / π) / 2)⌋ : ℝ)
            / SlippyTiler.numTiles z := by
        ring
      rw [hYn]
      conv_lhs => rw [hm_eq]
      have hprod := mul_nonneg hπ.le (sub_nonneg.mpr hu_ge)
      nlinarith [hprod]
    calc lat
        = SlippyTiler.MercatorToLat
            (Real.log (Real.tan (SlippyTiler.radians lat)
              + SlippyTiler.sec (SlippyTiler.radians lat))) :=
          (MercatorToLat_log_tan_add_sec lat hθ1 hθ2).symm
      _ ≤ SlippyTiler.MercatorToLat (π * (1 - 2 * ((⌊SlippyTiler.numTiles z
            * ((1 - Real.log (Real.tan (SlippyTiler.radians lat)
                + SlippyTiler.sec (SlippyTiler.radians lat)) / π) / 2)⌋ : ℝ)
              * (1 / SlippyTiler.numTiles z)))) :=
          MercatorToLat_mono key
  -- west ≤ lon
  · show (SlippyTiler.LonBounds (SlippyTiler.LatLonToTile lat lon z).1 z).1 ≤ lon
    rw [hx_def]
    unfold SlippyTiler.LonBounds
    have hfloor := Int.floor_le (SlippyTiler.numTiles z * ((lon + 180) / 360))
    have hcal : SlippyTiler.numTiles z * ((lon + 180) / 360)
        * (360 / SlippyTiler.numTiles z) = lon + 180 := by
      field_simp
    have hmul : (⌊SlippyTiler.numTiles z * ((lon + 180) / 360)⌋ : ℝ)
          * (360 / SlippyTiler.numTiles z)
        ≤ SlippyTiler.numTiles z * ((lon + 180) / 360)
          * (360 / SlippyTiler.numTiles z) :=
      mul_le_mul_of_nonneg_right hfloor (by positivity)
    linarith [hmul, hcal]
  -- lon ≤ east
  · show lon ≤ (SlippyTiler.LonBounds (SlippyTiler.LatLonToTile lat lon z).1 z).2
    rw [hx_def]
    unfold SlippyTiler.LonBounds
    have hfloor := Int.lt_floor_add_one
      (SlippyTiler.numTiles z * ((lon + 180) / 360))
    have hcal : SlippyTiler.numTiles z * ((lon + 180) / 360)
        * (360 / SlippyTiler.numTiles z) = lon + 180 := by
      field_simp
    have hmul : SlippyTiler.numTiles z * ((lon + 180) / 360)
          * (360 / SlippyTiler.numTiles z)
        ≤ ((⌊SlippyTiler.numTiles z * ((lon + 180) / 360)⌋ : ℝ) + 1)
          * (360 / SlippyTiler.numTiles z) :=
      mul_le_mul_of_nonneg_right hfloor.le (by positivity)
    have hexp : ((⌊SlippyTiler.numTiles z * ((lon + 180) / 360)⌋ : ℝ) + 1)
          * (360 / SlippyTiler.numTiles z)
        = (⌊SlippyTiler.numTiles z * ((lon + 180) / 360)⌋ : ℝ)
            * (360 / SlippyTiler.numTiles z)
          + 360 / SlippyTiler.numTiles z := by
      ring
    linarith [hmul, hcal, hexp]

end WmtsExtractor
